import Mathlib

/-!
Verification of the Shopping-Agent price-comparison pipeline.

This file is a shallow embedding of the core backend modules of the
repository (parser.py, scraper.py, recommender.py, vector_db.py, app.py)
together with proofs about the frozen behavioural claims.

Modelling conventions:
- Python dictionaries produced by the code are modelled as Lean structures.
  A field whose value may be the JSON value null is an Option; where the
  code distinguishes a missing key from a key that is present with value
  null (because dict.get defaults fire only for missing keys), the field is
  a two-level Option (outer = key present?, inner = value null?).
- Python numbers are modelled by the rationals; the exact-arithmetic reading
  of the score formulas is the one the specification itself uses.
- The external language-completion service, the shopping-search service and
  the vector store are opaque collaborators; each is modelled by an oracle
  argument giving its outcome for the one call the code makes.
- Fallible Python code is modelled in the Except monad; a raised exception
  is a value of PyError.
-/

namespace ShoppingAgent

/-- The Python exceptions that the modelled code paths can raise. -/
inductive PyError where
  | typeError
  | attributeError
  | serviceError
  deriving DecidableEq, Repr

/-- Outcome of a single call to the opaque language-completion service,
from the point of view of the caller that strips Markdown fences and then
runs json.loads: the service may raise, the text may fail to parse as a
JSON object (this also covers valid JSON that is not an object, which makes
the subsequent attribute accesses raise inside the same try block), or a
structured value is obtained. -/
inductive CompletionOutcome (α : Type) where
  | serviceError
  | unparsable
  | parsed (val : α)

/-- config.py: process-wide configuration; the values are the os.getenv
defaults of config.py. -/
structure Config where
  DEFAULT_REGION : String := "India"
  DEFAULT_CURRENCY : String := "INR"
  MAX_RESULTS : Nat := 10
  deriving DecidableEq, Repr

/-- The module-level config object of config.py with its default settings. -/
def config : Config := {}

/-- A raw Google-Shopping listing as consumed by
PriceScraper._normalize_google_shopping_result.  Every field is two-level:
the outer Option is key presence, the inner Option is JSON null. -/
structure RawListing where
  title : Option (Option String) := none
  price : Option (Option String) := none
  extracted_price : Option (Option ℚ) := none
  source : Option (Option String) := none
  rating : Option (Option ℚ) := none
  reviews : Option (Option ℚ) := none
  link : Option (Option String) := none
  thumbnail : Option (Option String) := none
  delivery : Option (Option String) := none
  deriving DecidableEq, Repr

/-- The normalized offer dictionary built by
_normalize_google_shopping_result.  Every key is always present in that
dictionary, so one Option level suffices: none is Python None. -/
structure Offer where
  title : Option String := some ""
  price : Option ℚ := some 0
  price_string : Option String := some ""
  seller : Option String := some "Unknown"
  url : Option String := some ""
  thumbnail : Option String := some ""
  rating : Option ℚ := none
  reviews : Option ℚ := none
  delivery : Option String := some ""
  source : String := "Google Shopping"
  in_stock : Bool := true
  deriving DecidableEq, Repr

/-- The preferences sub-dictionary of a structured request.  price_priority
is two-level because rank_results reads it with default "lowest" (missing
key and null behave differently there) while _extract_user_intent reads it
with default None.  delivery_priority, seller_trust and condition are only
ever observed through truthiness or not at all, so missing and null
collapse to none. -/
structure Preferences where
  price_priority : Option (Option String) := none
  delivery_priority : Option Bool := none
  seller_trust : Option String := none
  condition : Option String := none
  deriving DecidableEq, Repr

/-- The specifications sub-dictionary.  The code only ever reads the four
keys named in the extraction prompt, each through truthiness, so missing
and null collapse to none. -/
structure Specifications where
  storage : Option String := none
  color : Option String := none
  size : Option String := none
  other : Option String := none
  deriving DecidableEq, Repr

/-- The budget sub-dictionary. -/
structure Budget where
  min : Option ℚ := none
  max : Option ℚ := none
  currency : Option String := none
  deriving DecidableEq, Repr

/-- The dictionary returned by ProductParser.parse_query (and, minus the
search_query key, the shape of the JSON object the completion service is
asked for).  specifications, budget and preferences are two-level because
the code reads them with dict.get defaults ({}) and then calls .get on the
result, which raises AttributeError when the stored value is null. -/
structure StructuredRequest where
  product : Option String := none
  brand : Option String := none
  model : Option String := none
  specifications : Option (Option Specifications) := none
  budget : Option (Option Budget) := none
  region : Option String := none
  preferences : Option (Option Preferences) := none
  search_query : String := ""
  deriving DecidableEq, Repr

/-- An index/reason pair inside a recommendation. -/
structure RecPick where
  index : ℤ
  reason : String
  deriving DecidableEq, Repr

/-- The recommendation dictionary.  The three code paths of the recommender
return dictionaries with different key sets, so every key except status is
an Option (none = key absent). -/
structure Recommendation where
  status : String := ""
  message : Option String := none
  recommendations : Option (List Offer) := none
  analysis : Option String := none
  products : Option (List Offer) := none
  best_overall : Option RecPick := none
  best_value : Option RecPick := none
  fastest_delivery : Option RecPick := none
  considerations : Option (List String) := none
  alternatives : Option String := none
  deriving DecidableEq, Repr

/-! ## Small Python helpers -/

/-- Python " sep ".join(parts). -/
def pyJoin (sep : String) : List String → String
  | [] => ""
  | x :: xs => xs.foldl (fun acc y => acc ++ sep ++ y) x

/-- f-string rendering of a value that may be Python None. -/
def pyShowOptStr : Option String → String
  | none => "None"
  | some s => s

/-- f-string rendering of a numeric value that may be Python None.  The
exact decimal rendering of Python floats is abstracted by the canonical
rational rendering; no claim observes these characters. -/
def pyShowOptRat : Option ℚ → String
  | none => "None"
  | some q => toString q

/-- f-string rendering of a Python bool. -/
def pyShowBool : Bool → String
  | true => "True"
  | false => "False"

theorem pyJoin_foldl_length_le (sep : String) (acc : String) (xs : List String) :
    acc.length ≤ (xs.foldl (fun acc y => acc ++ sep ++ y) acc).length := by
  induction xs generalizing acc with
  | nil => exact Nat.le_refl _
  | cons y ys ih =>
    calc acc.length ≤ (acc ++ sep ++ y).length := by
          simp [String.length_append]; omega
      _ ≤ _ := ih _

theorem pyJoin_ne_empty (sep : String) (x : String) (xs : List String)
    (hx : x ≠ "") : pyJoin sep (x :: xs) ≠ "" := by
  intro h
  have hlen : x.length ≤ (pyJoin sep (x :: xs)).length := pyJoin_foldl_length_le sep x xs
  rw [h] at hlen
  simp at hlen
  exact hx (by cases x with | mk d => simp [String.length, List.length_eq_zero] at hlen; simp [hlen])

/-! ## Stable sorting

Python sorted is a stable sort; a stable sort is uniquely determined by the
(total, transitive) comparison used, so Mathlib insertionSort with the same
comparison computes the exact list Python returns.  The lemma below packages
the stability property in filter form: the offers whose sort key equals any
fixed value appear in the output exactly in their input order. -/

theorem filter_insertionSort (r : α → α → Prop) [DecidableRel r] (p : α → Bool)
    (l : List α) (hp : ∀ a b, p a = true → p b = true → r a b) :
    (l.insertionSort r).filter p = l.filter p := by
  have hpair : (l.filter p).Pairwise r :=
    List.pairwise_of_forall_mem_list fun a ha b hb =>
      hp a b (List.mem_filter.mp ha).2 (List.mem_filter.mp hb).2
  have hsub : List.Sublist (l.filter p) (l.insertionSort r) :=
    List.sublist_insertionSort hpair (List.filter_sublist l)
  have hsub2 : List.Sublist (l.filter p) ((l.insertionSort r).filter p) := by
    have h := hsub.filter p
    rwa [List.filter_eq_self.mpr (fun a ha => (List.mem_filter.mp ha).2)] at h
  have hlen : ((l.insertionSort r).filter p).length = (l.filter p).length :=
    ((List.perm_insertionSort r l).filter p).length_eq
  exact (hsub2.eq_of_length hlen.symm).symm

/-! ## scraper.py -/

/-- PriceScraper._normalize_google_shopping_result.  Each field is read
with dict.get, whose default fires only for a missing key; a key present
with value null flows through as Python None.  The try/except wrapper of
the source is dead code here because dict.get never raises, so the
function always returns a dictionary (never None). -/
def normalize_google_shopping_result (item : RawListing) : Offer :=
  { title := item.title.getD (some "")
    price := item.extracted_price.getD (some 0)
    price_string := item.price.getD (some "")
    seller := item.source.getD (some "Unknown")
    url := item.link.getD (some "")
    thumbnail := item.thumbnail.getD (some "")
    rating := item.rating.getD none
    reviews := item.reviews.getD none
    delivery := item.delivery.getD (some "")
    source := "Google Shopping"
    in_stock := true }

/-- PriceScraper.search_google_shopping.  The outbound SERP call is an
oracle; any exception from it is caught and turned into [], otherwise
every raw listing is normalized (the `if normalized_item` filter of the
source never drops anything because the normalizer always returns a
non-empty dictionary, which is truthy). -/
def search_google_shopping (serp : Except PyError (List RawListing)) : List Offer :=
  match serp with
  | .error _ => []
  | .ok items => items.map normalize_google_shopping_result

/-- PriceScraper.search_all_sources: Google Shopping is the only source;
the time.sleep is a no-op for the data flow. -/
def search_all_sources (serp : Except PyError (List RawListing)) : List Offer :=
  search_google_shopping serp

/-- The score closure of PriceScraper.rank_results, evaluated on one item.
Python evaluates `price > 0` on the raw dictionary value, so a null price
raises TypeError; under delivery priority `delivery.lower()` on a null
delivery raises AttributeError.  pp is the result of
preferences.get("price_priority", "lowest") and dp the truthiness of
preferences.get("delivery_priority", False). -/
def calculate_score (pp : Option String) (dp : Bool) (item : Offer) :
    Except PyError ℚ :=
  match item.price with
  | none => .error .typeError
  | some price =>
    let s0 : ℚ := if 0 < price then (if pp = some "lowest" then 10000 / (price + 1) else 0) else 0
    let s1 : ℚ :=
      match item.rating with
      | none => s0
      | some r => if r = 0 then s0 else s0 + r * 10
    if dp then
      match item.delivery with
      | none => .error .attributeError
      | some d =>
        let dl := d.toLower
        let s2 : ℚ := if dl.containsSubstr "free" then s1 + 50 else s1
        let s3 : ℚ := if dl.containsSubstr "fast" || dl.containsSubstr "express" then s2 + 30 else s2
        .ok s3
    else .ok s1

/-- The strict greater-or-equal-score relation that a descending stable
sort of already-computed (item, key) pairs uses. -/
def snd_desc_rel : Offer × ℚ → Offer × ℚ → Prop := fun a b => b.2 ≤ a.2

instance : DecidableRel snd_desc_rel := fun a b =>
  inferInstanceAs (Decidable (b.2 ≤ a.2))

instance : IsTotal (Offer × ℚ) snd_desc_rel :=
  ⟨fun a b => le_total b.2 a.2⟩

instance : IsTrans (Offer × ℚ) snd_desc_rel :=
  ⟨fun _ _ _ h1 h2 => le_trans h2 h1⟩

/-- PriceScraper.rank_results.  An entirely missing preferences argument
(Python None) raises AttributeError at the first .get; otherwise CPython
sorted first evaluates the key function on every element in list order
(propagating the first exception) and then performs a stable descending
sort on the computed keys. -/
def rank_results (preferences : Option Preferences) (results : List Offer) :
    Except PyError (List Offer) :=
  if results.isEmpty then .ok []
  else
    match preferences with
    | none => .error .attributeError
    | some prefs =>
      let pp := prefs.price_priority.getD (some "lowest")
      let dp := prefs.delivery_priority.getD false
      match results.mapM (fun o => (calculate_score pp dp o).map (fun s => (o, s))) with
      | .error e => .error e
      | .ok keyed => .ok ((keyed.insertionSort snd_desc_rel).map Prod.fst)

/-- The score function exactly as claim C1 and section 4.3 of the
specification state it, to be compared against calculate_score: a null
price contributes no price term and sorting is by this total function. -/
def score_spec (pp : Option String) (dp : Bool) (o : Offer) : ℚ :=
  (if pp = some "lowest" ∧ 0 < o.price.getD 0 then 10000 / (o.price.getD 0 + 1) else 0)
  + o.rating.getD 0 * 10
  + (if dp ∧ (o.delivery.getD "").toLower.containsSubstr "free" then 50 else 0)
  + (if dp ∧ ((o.delivery.getD "").toLower.containsSubstr "fast"
        || (o.delivery.getD "").toLower.containsSubstr "express") then 30 else 0)

/-- Sorting offers non-increasingly by the specified score. -/
def score_desc_rel (pp : Option String) (dp : Bool) : Offer → Offer → Prop :=
  fun a b => score_spec pp dp b ≤ score_spec pp dp a

instance : DecidableRel (score_desc_rel pp dp) := fun a b =>
  inferInstanceAs (Decidable (score_spec pp dp b ≤ score_spec pp dp a))

instance : IsTotal Offer (score_desc_rel pp dp) :=
  ⟨fun a b => le_total (score_spec pp dp b) (score_spec pp dp a)⟩

instance : IsTrans Offer (score_desc_rel pp dp) :=
  ⟨fun _ _ _ h1 h2 => le_trans h2 h1⟩

theorem calculate_score_eq_spec (pp : Option String) (dp : Bool) (o : Offer)
    (hp : o.price ≠ none) (hd : dp = true → o.delivery ≠ none) :
    calculate_score pp dp o = .ok (score_spec pp dp o) := by
  obtain ⟨p, hpeq⟩ := Option.ne_none_iff_exists'.mp hp
  unfold calculate_score score_spec
  rw [hpeq]
  cases dp with
  | false =>
    simp only [Bool.false_eq_true, if_false, false_and, Option.getD_some, hpeq]
    cases o.rating with
    | none => simp; by_cases h1 : pp = some "lowest" <;> by_cases h2 : (0:ℚ) < p <;>
        simp [h1, h2] <;> ring
    | some r =>
      by_cases hr : r = 0 <;> by_cases h1 : pp = some "lowest" <;> by_cases h2 : (0:ℚ) < p <;>
        simp [hr, h1, h2] <;> ring
  | true =>
    obtain ⟨d, hdeq⟩ := Option.ne_none_iff_exists'.mp (hd rfl)
    rw [hdeq]
    simp only [Option.getD_some, hpeq, hdeq, true_and]
    by_cases hf : d.toLower.containsSubstr "free" <;>
      by_cases hx : (d.toLower.containsSubstr "fast" || d.toLower.containsSubstr "express") = true <;>
      by_cases h1 : pp = some "lowest" <;> by_cases h2 : (0:ℚ) < p <;>
      cases o.rating with
    | _ => first
      | (rename_i r; by_cases hr : r = 0 <;> simp [hf, hx, h1, h2, hr] <;> ring)
      | (simp [hf, hx, h1, h2] <;> ring)

theorem mapM_ok_of_forall {α β : Type} (f : α → Except PyError β) (g : α → β)
    (l : List α) (h : ∀ a ∈ l, f a = .ok (g a)) : l.mapM f = .ok (l.map g) := by
  induction l with
  | nil => rfl
  | cons a as ih =>
    rw [List.mapM_cons, h a (List.mem_cons_self a as),
      ih (fun x hx => h x (List.mem_cons_of_mem a hx))]
    rfl

/-- C1, counterexample input: a single offer whose price is JSON null. -/
def offer_null_price : Offer := { price := none }

/-- C1: the claim fails on offers with a null price: instead of scoring the
price term as zero, rank_results raises TypeError when the key closure
evaluates `None > 0`, so no ranking is returned at all. -/
theorem rank_results_null_price_raises :
    rank_results (some {}) [offer_null_price] = .error .typeError := rfl

/-- C1 (amended): on every offer list whose prices are all non-null (and,
when delivery priority is set, whose delivery fields are all non-null),
rank_results returns a permutation of its input that is sorted
non-increasingly by the specified weighted score, and offers with equal
score keep their original relative order. -/
theorem rank_results_weighted_spec (prefs : Preferences) (results : List Offer)
    (hprice : ∀ o ∈ results, o.price ≠ none)
    (hdeliv : prefs.delivery_priority.getD false = true → ∀ o ∈ results, o.delivery ≠ none) :
    ∃ out, rank_results (some prefs) results = .ok out ∧
      List.Perm out results ∧
      out.Pairwise (score_desc_rel (prefs.price_priority.getD (some "lowest"))
        (prefs.delivery_priority.getD false)) ∧
      ∀ q : ℚ, out.filter (fun o => score_spec (prefs.price_priority.getD (some "lowest"))
          (prefs.delivery_priority.getD false) o == q)
        = results.filter (fun o => score_spec (prefs.price_priority.getD (some "lowest"))
          (prefs.delivery_priority.getD false) o == q) := by
  by_cases hres : results.isEmpty
  · rw [List.isEmpty_iff] at hres
    subst hres
    exact ⟨[], rfl, List.Perm.nil, List.Pairwise.nil, fun _ => rfl⟩
  · have hmap : results.mapM (fun o =>
        (calculate_score (prefs.price_priority.getD (some "lowest"))
          (prefs.delivery_priority.getD false) o).map (fun s => (o, s)))
        = .ok (results.map (fun o => (o, score_spec (prefs.price_priority.getD (some "lowest"))
            (prefs.delivery_priority.getD false) o))) :=
      mapM_ok_of_forall _ _ _ (fun o ho => by
        rw [calculate_score_eq_spec _ _ o (hprice o ho) (fun hdp => hdeliv hdp o ho)]
        rfl)
    have hrank : rank_results (some prefs) results
        = .ok (((results.map (fun o => (o, score_spec (prefs.price_priority.getD (some "lowest"))
            (prefs.delivery_priority.getD false) o))).insertionSort snd_desc_rel).map Prod.fst) := by
      simp only [rank_results, if_neg hres, hmap]
    have hout : ((results.map (fun o => (o, score_spec (prefs.price_priority.getD (some "lowest"))
          (prefs.delivery_priority.getD false) o))).insertionSort snd_desc_rel).map Prod.fst
        = results.insertionSort (score_desc_rel (prefs.price_priority.getD (some "lowest"))
            (prefs.delivery_priority.getD false)) := by
      rw [List.map_insertionSort snd_desc_rel
          (score_desc_rel (prefs.price_priority.getD (some "lowest"))
            (prefs.delivery_priority.getD false)) Prod.fst _
          (fun a ha b hb => by
            obtain ⟨oa, -, rfl⟩ := List.mem_map.mp ha
            obtain ⟨ob, -, rfl⟩ := List.mem_map.mp hb
            exact Iff.rfl),
        List.map_map]
      exact congrArg (List.insertionSort _) (List.map_id results)
    rw [hout] at hrank
    refine ⟨_, hrank, List.perm_insertionSort _ _, List.sorted_insertionSort _ _, fun q => ?_⟩
    exact filter_insertionSort _ _ results (fun a b hpa hpb => by
      simp only [beq_iff_eq] at hpa hpb
      unfold score_desc_rel
      rw [hpa, hpb])

/-- Concrete preference dictionary for the ranking witness. -/
def prefs_w : Preferences :=
  { price_priority := some (some "lowest"), delivery_priority := some true }

/-- Concrete offer with price, rating and free delivery. -/
def offer_a : Offer :=
  { price := some 100, rating := some 4, delivery := some "Free delivery" }

/-- Concrete offer with a lower price, higher rating and fast shipping. -/
def offer_b : Offer :=
  { price := some 50, rating := some 5, delivery := some "fast shipping" }

theorem rank_results_weighted_spec_witness :
    ∃ out, rank_results (some prefs_w) [offer_a, offer_b] = .ok out ∧
      List.Perm out [offer_a, offer_b] ∧
      out.Pairwise (score_desc_rel (prefs_w.price_priority.getD (some "lowest"))
        (prefs_w.delivery_priority.getD false)) ∧
      ∀ q : ℚ, out.filter (fun o => score_spec (prefs_w.price_priority.getD (some "lowest"))
          (prefs_w.delivery_priority.getD false) o == q)
        = [offer_a, offer_b].filter (fun o => score_spec (prefs_w.price_priority.getD (some "lowest"))
          (prefs_w.delivery_priority.getD false) o == q) :=
  rank_results_weighted_spec prefs_w [offer_a, offer_b]
    (by decide) (fun _ => by decide)

/-! ## C5: normalization invariants -/

/-- C5, counterexample: a raw listing that provides no numeric price at all
(no extracted_price key) is normalized to price = 0, not to a null price,
and its price_string is the empty string, not the "N/A" fallback. -/
theorem normalize_missing_price_counterexample :
    (normalize_google_shopping_result {}).price = some 0 ∧
    (normalize_google_shopping_result {}).price ≠ none ∧
    (normalize_google_shopping_result {}).price_string = some "" ∧
    (normalize_google_shopping_result {}).price_string ≠ some "N/A" := by
  refine ⟨rfl, by simp [normalize_google_shopping_result], rfl, by
    simp [normalize_google_shopping_result]⟩

/-- C5 (amended): characterization of the normalizer.  price is null
exactly when the listing carries an extracted_price key whose value is
null (a listing with no extracted_price key gets price 0); price_string is
copied from the raw price string, defaults to "" when the key is missing
and is null when the raw value is null; the seller is "Unknown" exactly
when the source key is missing (or literally "Unknown"); every normalized
offer is marked in stock. -/
theorem normalize_google_shopping_result_spec (item : RawListing) :
    (normalize_google_shopping_result item).in_stock = true ∧
    ((normalize_google_shopping_result item).price = none ↔
      item.extracted_price = some none) ∧
    ((normalize_google_shopping_result item).price = some 0 ↔
      item.extracted_price = none ∨ item.extracted_price = some (some 0)) ∧
    ((normalize_google_shopping_result item).price_string = none ↔
      item.price = some none) ∧
    ((normalize_google_shopping_result item).price_string = some "" ↔
      item.price = none ∨ item.price = some (some "")) ∧
    ((normalize_google_shopping_result item).seller = some "Unknown" ↔
      item.source = none ∨ item.source = some (some "Unknown")) ∧
    (normalize_google_shopping_result item).source = "Google Shopping" := by
  refine ⟨rfl, ?_, ?_, ?_, ?_, ?_, rfl⟩ <;>
    unfold normalize_google_shopping_result
  · cases h : item.extracted_price with
    | none => simp [h]
    | some v => cases v <;> simp [h]
  · cases h : item.extracted_price with
    | none => simp [h]
    | some v => cases v <;> simp [h]
  · cases h : item.price with
    | none => simp [h]
    | some v => cases v <;> simp [h]
  · cases h : item.price with
    | none => simp [h]
    | some v => cases v <;> simp [h]
  · cases h : item.source with
    | none => simp [h]
    | some v => cases v <;> simp [h]

/-! ## C7: the price-ascending ranking policy

The specification requires the Ranking Engine to support a second,
price-ascending policy because other revisions of this repository use it;
that revision is not among the files under src, so the policy is modelled
from the specification text. -/

/-- Comparing possibly-null prices with null treated as plus infinity
(sorted last). -/
def optPriceLe : Option ℚ → Option ℚ → Prop
  | _, none => True
  | none, some _ => False
  | some p, some q => p ≤ q

instance instOptPriceLeDec (p q : Option ℚ) : Decidable (optPriceLe p q) := by
  cases p <;> cases q <;> simp only [optPriceLe] <;> infer_instance

theorem optPriceLe_total (p q : Option ℚ) : optPriceLe p q ∨ optPriceLe q p := by
  cases p <;> cases q <;> simp [optPriceLe] <;> exact le_total _ _

theorem optPriceLe_trans {p q r : Option ℚ} (h1 : optPriceLe p q)
    (h2 : optPriceLe q r) : optPriceLe p r := by
  cases p <;> cases q <;> cases r <;> simp_all [optPriceLe] <;> exact le_trans h1 h2

/-- Ascending comparison of offers by price, null prices last. -/
def price_asc_rel (a b : Offer) : Prop := optPriceLe a.price b.price

instance : DecidableRel price_asc_rel := fun a b => instOptPriceLeDec a.price b.price

instance : IsTotal Offer price_asc_rel := ⟨fun a b => optPriceLe_total a.price b.price⟩

instance : IsTrans Offer price_asc_rel := ⟨fun _ _ _ => optPriceLe_trans⟩

/-- Modelled from the spec: the price-ascending ranking policy of section
4.3, present only in repository revisions outside src: a stable ascending
sort by price with null prices sorted last (treated as plus infinity). -/
def rank_results_price_ascending (results : List Offer) : List Offer :=
  results.insertionSort price_asc_rel

/-- C7: the price-ascending policy returns a permutation of its input in
which every null-price offer follows every offer with a non-null price,
the non-null prices are non-decreasing, and offers with equal price (the
sort key) keep their original relative order. -/
theorem rank_results_price_ascending_spec (results : List Offer) :
    List.Perm (rank_results_price_ascending results) results ∧
    (rank_results_price_ascending results).Pairwise price_asc_rel ∧
    (rank_results_price_ascending results).Pairwise
      (fun a b => a.price = none → b.price = none) ∧
    (rank_results_price_ascending results).Pairwise
      (fun a b => ∀ p q, a.price = some p → b.price = some q → p ≤ q) ∧
    ∀ k : Option ℚ, (rank_results_price_ascending results).filter (fun o => o.price == k)
      = results.filter (fun o => o.price == k) := by
  have hsorted : (rank_results_price_ascending results).Pairwise price_asc_rel :=
    List.sorted_insertionSort price_asc_rel results
  refine ⟨List.perm_insertionSort _ _, hsorted, ?_, ?_, fun k => ?_⟩
  · refine hsorted.imp (fun {a b} hab ha => ?_)
    revert hab
    unfold price_asc_rel
    rw [ha]
    cases b.price with
    | none => exact fun _ => rfl
    | some q => exact fun h => absurd h id
  · refine hsorted.imp (fun {a b} hab p q hp hq => ?_)
    revert hab
    unfold price_asc_rel
    rw [hp, hq]
    exact id
  · refine filter_insertionSort _ _ results (fun a b hpa hpb => ?_)
    simp only [beq_iff_eq] at hpa hpb
    unfold price_asc_rel
    rw [hpa, hpb]
    cases k with
    | none => exact trivial
    | some q => exact le_refl q

/-! ## parser.py -/

/-- The extraction prompt of ProductParser.parse_query (braces of the JSON
template written as hex escapes). -/
def parse_prompt (cfg : Config) (user_query : String) : String :=
  "\nYou are a product information extraction expert. Extract structured information from the user\x27s product query.\n\nUser Query: \"" ++ user_query ++
  "\"\n\nExtract the following information and return ONLY a valid JSON object (no markdown, no additional text):\n\n\x7b\n  \"product\": \"product name\",\n  \"brand\": \"brand name or null\",\n  \"model\": \"model/variant or null\",\n  \"specifications\": \x7b\n    \"storage\": \"storage capacity or null\",\n    \"color\": \"color or null\",\n    \"size\": \"size or null\",\n    \"other\": \"any other specs\"\n  \x7d,\n  \"budget\": \x7b\n    \"min\": minimum price or null,\n    \"max\": maximum price or null,\n    \"currency\": \"currency code\"\n  \x7d,\n  \"region\": \"country/region\",\n  \"preferences\": \x7b\n    \"price_priority\": \"lowest/best_value/premium\",\n    \"delivery_priority\": true/false,\n    \"seller_trust\": \"any/high/verified\",\n    \"condition\": \"new/refurbished/any\"\n  \x7d\n\x7d\n\nRules:\n1. Use null for missing information\n2. Infer reasonable defaults (e.g., region: \"" ++ cfg.DEFAULT_REGION ++
  "\")\n3. Return ONLY the JSON object, nothing else\n4. Ensure valid JSON format\n"

/-- `if value: parts.append(value)` for a string that may be null: the
value is appended only when it is truthy (non-null and non-empty). -/
def appendIfTruthy (parts : List String) : Option String → List String
  | none => parts
  | some s => if s = "" then parts else parts ++ [s]

theorem appendIfTruthy_ne_nil (parts : List String) (v : Option String)
    (h : parts ≠ []) : appendIfTruthy parts v ≠ [] := by
  cases v with
  | none => exact h
  | some s =>
    by_cases hs : s = "" <;> simp [appendIfTruthy, hs, h]

theorem appendIfTruthy_some_ne_nil (parts : List String) {s : String}
    (h : s ≠ "") : appendIfTruthy parts (some s) ≠ [] := by
  simp [appendIfTruthy, h]

theorem appendIfTruthy_forall (parts : List String) (v : Option String)
    (h : ∀ x ∈ parts, x ≠ "") : ∀ x ∈ appendIfTruthy parts v, x ≠ "" := by
  cases v with
  | none => exact h
  | some s =>
    by_cases hs : s = ""
    · simpa [appendIfTruthy, hs] using h
    · intro x hx
      have hx2 : x ∈ parts ∨ x = s := by simpa [appendIfTruthy, hs] using hx
      rcases hx2 with hx' | rfl
      · exact h x hx'
      · exact hs

theorem pyJoin_ne_empty_of (sep : String) (parts : List String)
    (h1 : parts ≠ []) (h2 : ∀ x ∈ parts, x ≠ "") : pyJoin sep parts ≠ "" := by
  cases parts with
  | nil => exact absurd rfl h1
  | cons x xs => exact pyJoin_ne_empty sep x xs (h2 x (List.mem_cons_self x xs))

/-- ProductParser._generate_search_query: joins the truthy brand, product,
model, storage and color fields with single spaces.  A parsed dictionary
whose specifications value is null makes specs.get raise AttributeError
(caught by the caller, which then falls back). -/
def generate_search_query (d : StructuredRequest) : Except PyError String :=
  let parts := appendIfTruthy [] d.brand
  let parts := appendIfTruthy parts d.product
  let parts := appendIfTruthy parts d.model
  match d.specifications.getD (some {}) with
  | none => .error .attributeError
  | some specs =>
    let parts := appendIfTruthy parts specs.storage
    let parts := appendIfTruthy parts specs.color
    .ok (pyJoin " " parts)

/-- The preference defaults of the fallback structure. -/
def fallback_preferences : Preferences :=
  { price_priority := some (some "lowest")
    delivery_priority := some true
    seller_trust := some "any"
    condition := some "new" }

/-- The budget of the fallback structure: null min and max, process-wide
default currency. -/
def fallback_budget (cfg : Config) : Budget :=
  { min := none
    max := none
    currency := some cfg.DEFAULT_CURRENCY }

/-- ProductParser._create_fallback_structure. -/
def create_fallback_structure (cfg : Config) (user_query : String) : StructuredRequest :=
  { product := some user_query
    brand := none
    model := none
    specifications := some (some {})
    budget := some (some (fallback_budget cfg))
    region := some cfg.DEFAULT_REGION
    preferences := some (some fallback_preferences)
    search_query := user_query }

/-- ProductParser.parse_query.  A service error or unparsable output (and
any exception raised inside the try block, such as the AttributeError from
a null specifications value) produces the fallback structure; a parsed
dictionary gets its search_query key assigned. -/
def parse_query (cfg : Config) (llm : String → CompletionOutcome StructuredRequest)
    (user_query : String) : StructuredRequest :=
  match llm (parse_prompt cfg user_query) with
  | .serviceError => create_fallback_structure cfg user_query
  | .unparsable => create_fallback_structure cfg user_query
  | .parsed d =>
    match generate_search_query d with
    | .error _ => create_fallback_structure cfg user_query
    | .ok q => { d with search_query := q }

/-- C4, counterexample: on the empty raw input with a failing completion
service the fallback copies the raw input verbatim, so search_query is
empty, contradicting the claimed invariant. -/
theorem parse_query_empty_input_counterexample :
    (parse_query config (fun _ => .serviceError) "").search_query = "" := rfl

/-- C4 (amended): search_query is non-empty provided the raw input is
non-empty and every successfully parsed completion result carries a truthy
product field; without these provisos it can be empty (empty raw input on
the fallback path, or a parsed object none of whose brand, product, model,
storage and color fields is truthy). -/
theorem parse_query_search_query_nonempty (cfg : Config)
    (llm : String → CompletionOutcome StructuredRequest) (raw : String)
    (hraw : raw ≠ "")
    (hllm : ∀ s d, llm s = .parsed d → ∃ p, d.product = some p ∧ p ≠ "") :
    (parse_query cfg llm raw).search_query ≠ "" := by
  cases hcall : llm (parse_prompt cfg raw) with
  | serviceError => simpa only [parse_query, hcall] using hraw
  | unparsable => simpa only [parse_query, hcall] using hraw
  | parsed d =>
    obtain ⟨p, hp, hpne⟩ := hllm _ d hcall
    cases hq : generate_search_query d with
    | error e => simpa only [parse_query, hcall, hq] using hraw
    | ok q =>
      simp only [parse_query, hcall, hq]
      show q ≠ ""
      unfold generate_search_query at hq
      cases hspec : d.specifications.getD (some {}) with
      | none => rw [hspec] at hq; cases hq
      | some specs =>
        rw [hspec] at hq
        simp only [Except.ok.injEq] at hq
        rw [← hq]
        refine pyJoin_ne_empty_of " " _ ?_ ?_
        · refine appendIfTruthy_ne_nil _ _ (appendIfTruthy_ne_nil _ _ ?_)
          rw [hp]
          exact appendIfTruthy_ne_nil _ _ (appendIfTruthy_some_ne_nil _ hpne)
        · refine appendIfTruthy_forall _ _ (appendIfTruthy_forall _ _
            (appendIfTruthy_forall _ _ (appendIfTruthy_forall _ _
              (appendIfTruthy_forall [] d.brand (by intro x hx; cases hx)) )))

theorem parse_query_search_query_nonempty_witness :
    (parse_query config (fun _ => .serviceError) "iphone 15").search_query ≠ "" :=
  parse_query_search_query_nonempty config (fun _ => .serviceError) "iphone 15"
    (by decide) (fun s d h => by cases h)

/-- C8: whenever the completion call does not yield a parsed object,
parse_query returns (never raises: its result type is total) the fallback
structure: product and search_query are the raw text verbatim, the
preferences are the lowest-price / delivery-priority defaults, and region
and budget currency come from the process-wide configuration. -/
theorem parse_query_fallback_spec (cfg : Config)
    (llm : String → CompletionOutcome StructuredRequest) (raw : String)
    (hfail : ∀ s d, llm s ≠ .parsed d) :
    parse_query cfg llm raw = create_fallback_structure cfg raw ∧
    (parse_query cfg llm raw).product = some raw ∧
    (parse_query cfg llm raw).search_query = raw ∧
    (parse_query cfg llm raw).preferences = some (some fallback_preferences) ∧
    fallback_preferences.price_priority = some (some "lowest") ∧
    fallback_preferences.delivery_priority = some true ∧
    (parse_query cfg llm raw).region = some cfg.DEFAULT_REGION ∧
    (parse_query cfg llm raw).budget = some (some (fallback_budget cfg)) ∧
    (fallback_budget cfg).currency = some cfg.DEFAULT_CURRENCY := by
  have h : parse_query cfg llm raw = create_fallback_structure cfg raw := by
    cases hcall : llm (parse_prompt cfg raw) with
    | serviceError => simp only [parse_query, hcall]
    | unparsable => simp only [parse_query, hcall]
    | parsed d => exact absurd hcall (hfail _ d)
  rw [h]
  exact ⟨rfl, rfl, rfl, rfl, rfl, rfl, rfl, rfl, rfl⟩

theorem parse_query_fallback_spec_witness :
    parse_query config (fun _ => .serviceError) "cheap phone"
      = create_fallback_structure config "cheap phone" ∧
    (parse_query config (fun _ => .serviceError) "cheap phone").product = some "cheap phone" ∧
    (parse_query config (fun _ => .serviceError) "cheap phone").search_query = "cheap phone" ∧
    (parse_query config (fun _ => .serviceError) "cheap phone").preferences
      = some (some fallback_preferences) ∧
    fallback_preferences.price_priority = some (some "lowest") ∧
    fallback_preferences.delivery_priority = some true ∧
    (parse_query config (fun _ => .serviceError) "cheap phone").region
      = some config.DEFAULT_REGION ∧
    (parse_query config (fun _ => .serviceError) "cheap phone").budget
      = some (some (fallback_budget config)) ∧
    (fallback_budget config).currency = some config.DEFAULT_CURRENCY :=
  parse_query_fallback_spec config (fun _ => .serviceError) "cheap phone"
    (fun s d h => by cases h)

/-! ## recommender.py -/

/-- One "k: v" entry of the specifications listing of
_extract_user_intent, kept only when the value is truthy. -/
def kv_part (k : String) : Option String → List String
  | none => []
  | some v => if v = "" then [] else [k ++ ": " ++ v]

/-- The truthy "k: v" entries of the specifications dictionary, in the
key order of the extraction prompt. -/
def spec_parts (s : Specifications) : List String :=
  kv_part "storage" s.storage ++ kv_part "color" s.color
    ++ kv_part "size" s.size ++ kv_part "other" s.other

/-- ProductRecommender._extract_user_intent.  A structured request whose
budget or preferences value is JSON null makes the .get call on it raise
AttributeError (a null specifications value is merely falsy and is
skipped); this function is called outside the try block of
generate_recommendation, so such an error propagates.  A missing product
key renders through the .get default "Product". -/
def extract_user_intent (info : StructuredRequest) : Except PyError String :=
  let parts := ["Looking for: " ++ info.product.getD "Product"]
  let parts := match info.brand with
    | some b => if b = "" then parts else parts ++ ["Brand: " ++ b]
    | none => parts
  let parts := match info.specifications with
    | some (some s) =>
      let sp := spec_parts s
      if sp.isEmpty then parts else parts ++ ["Specifications: " ++ pyJoin ", " sp]
    | _ => parts
  match info.budget with
  | some none => .error .attributeError
  | b =>
    let parts := match b with
      | some (some bd) =>
        match bd.max with
        | some m =>
          if m = 0 then parts
          else parts ++ ["Budget: Up to " ++ toString m ++ " " ++ bd.currency.getD ""]
        | none => parts
      | _ => parts
    match info.preferences with
    | some none => .error .attributeError
    | pr =>
      let parts := match pr with
        | some (some prefs) =>
          match prefs.price_priority.getD none with
          | some pp => if pp = "" then parts else parts ++ ["Priority: " ++ pp ++ " price"]
          | none => parts
        | _ => parts
      let parts := match pr with
        | some (some prefs) =>
          if prefs.delivery_priority.getD false then parts ++ ["Fast delivery preferred"] else parts
        | _ => parts
      .ok (pyJoin " | " parts)

/-- One option block of ProductRecommender._prepare_products_summary
(after the .strip() of the source template). -/
def product_summary (i : Nat) (product : Offer) : String :=
  "Option " ++ toString (i + 1) ++ ":\n- Product: " ++ pyShowOptStr product.title ++
  "\n- Price: " ++ pyShowOptStr product.price_string ++
  "\n- Seller: " ++ pyShowOptStr product.seller ++
  "\n- Rating: " ++ pyShowOptRat product.rating ++
  " (" ++ pyShowOptRat product.reviews ++ " reviews)" ++
  "\n- Delivery: " ++ pyShowOptStr product.delivery ++
  "\n- In Stock: " ++ pyShowBool product.in_stock

/-- ProductRecommender._prepare_products_summary. -/
def prepare_products_summary (products : List Offer) : String :=
  pyJoin "\n\n" (products.enum.map (fun p => product_summary p.1 p.2))

/-- The advisory prompt of generate_recommendation (braces of the JSON
template written as hex escapes). -/
def recommendation_prompt (user_intent products_summary : String) : String :=
  "\nYou are an expert shopping advisor. Analyze these product options and provide a recommendation.\n\nUSER REQUEST:\n" ++ user_intent ++
  "\n\nAVAILABLE OPTIONS:\n" ++ products_summary ++
  "\n\nProvide a comprehensive recommendation in the following JSON format:\n\n\x7b\n  \"best_overall\": \x7b\n    \"index\": 0,\n    \"reason\": \"Why this is the best choice\"\n  \x7d,\n  \"best_value\": \x7b\n    \"index\": 1,\n    \"reason\": \"Best price-to-quality ratio\"\n  \x7d,\n  \"fastest_delivery\": \x7b\n    \"index\": 2,\n    \"reason\": \"Quickest availability\"\n  \x7d,\n  \"analysis\": \"2-3 sentence overall analysis of the options\",\n  \"considerations\": [\"Important factor 1\", \"Important factor 2\"],\n  \"alternatives\": \"Brief mention of alternative options if any\"\n\x7d\n\nReturn ONLY the JSON, no markdown or additional text.\n"

/-- The rating component of the fallback sort key:
float(x.get('rating', 0) or 0). -/
def fb_rating_key (o : Offer) : ℚ := o.rating.getD 0

/-- The Python tuple comparison (-rating_a, price_a) <= (-rating_b,
price_b) where it is defined, totalized by treating a null price as plus
infinity on the pairs Python cannot compare (those are excluded by
fallback_comparable wherever this relation is used for sorting). -/
def fb_rel (a b : Offer) : Prop :=
  fb_rating_key b < fb_rating_key a ∨
    (fb_rating_key a = fb_rating_key b ∧ optPriceLe a.price b.price)

instance : DecidableRel fb_rel := fun a b =>
  inferInstanceAs (Decidable (_ ∨ _ ∧ _))

instance : IsTotal Offer fb_rel := by
  refine ⟨fun a b => ?_⟩
  rcases lt_trichotomy (fb_rating_key a) (fb_rating_key b) with h | h | h
  · exact Or.inr (Or.inl h)
  · rcases optPriceLe_total a.price b.price with hp | hp
    · exact Or.inl (Or.inr ⟨h, hp⟩)
    · exact Or.inr (Or.inr ⟨h.symm, hp⟩)
  · exact Or.inl (Or.inl h)

instance : IsTrans Offer fb_rel := by
  refine ⟨fun a b c hab hbc => ?_⟩
  rcases hab with hab | ⟨hab, hpab⟩ <;> rcases hbc with hbc | ⟨hbc, hpbc⟩
  · exact Or.inl (lt_trans hbc hab)
  · exact Or.inl (hbc ▸ hab)
  · exact Or.inl (hab ▸ hbc)
  · exact Or.inr ⟨hab.trans hbc, optPriceLe_trans hpab hpbc⟩

/-- The comparisons that the fallback sort might perform are all defined:
no two candidates tie on rating while exactly one of them has a null
price.  (CPython raises TypeError only when such a pair is actually
compared; which pairs are compared is data dependent, and on every input
our theorems touch - fully comparable lists and two-element lists - this
all-pairs condition coincides with CPython behaviour.) -/
def fallback_comparable (l : List Offer) : Bool :=
  l.all fun a => l.all fun b =>
    !(fb_rating_key a == fb_rating_key b)
      || (a.price.isSome && b.price.isSome) || (a.price.isNone && b.price.isNone)

/-- ProductRecommender._create_fallback_recommendation: sorts the first
top_n products by (rating descending, price ascending) with a stable sort
and recommends index 0; comparing a null price with a number inside the
sort raises TypeError (inside the except handler, so it propagates). -/
def create_fallback_recommendation (products : List Offer) (top_n : Nat) :
    Except PyError Recommendation :=
  if products.isEmpty then
    .ok { status := "error"
          message := some "Unable to generate recommendations"
          products := some [] }
  else if fallback_comparable (products.take top_n) then
    .ok { status := "success"
          best_overall := some { index := 0, reason := "Best combination of price and rating" }
          analysis := some ("Found " ++ toString products.length
            ++ " options. Top recommendation based on price and ratings.")
          products := some ((products.take top_n).insertionSort fb_rel)
          considerations := some ["Price", "Seller rating", "Availability"] }
  else .error .typeError

/-- The dictionary generate_recommendation returns on an empty result
list. -/
def no_results_recommendation : Recommendation :=
  { status := "no_results"
    message := some "No products found matching your criteria."
    recommendations := some []
    analysis := some "" }

/-- ProductRecommender.generate_recommendation.  The second component
counts the calls made to the completion service.  A parsed reply gets the
products slice and a success status assigned; a service error or
unparsable reply (JSONDecodeError, or any exception inside the try block)
produces the deterministic fallback. -/
def generate_recommendation (llm : String → CompletionOutcome Recommendation)
    (product_info : StructuredRequest) (search_results : List Offer)
    (top_n : Nat := 3) : Except PyError Recommendation × Nat :=
  if search_results.isEmpty then (.ok no_results_recommendation, 0)
  else
    let products_summary := prepare_products_summary (search_results.take top_n)
    match extract_user_intent product_info with
    | .error e => (.error e, 0)
    | .ok user_intent =>
      match llm (recommendation_prompt user_intent products_summary) with
      | .parsed r =>
        (.ok { r with products := some (search_results.take top_n), status := "success" }, 1)
      | .serviceError => (create_fallback_recommendation search_results top_n, 1)
      | .unparsable => (create_fallback_recommendation search_results top_n, 1)

/-- C2, counterexample: the empty-results reply does carry status
no_results and makes no completion call, but its analysis text is the
empty string (not "No products found."), the human message lives under
the message key, and the empty list lives under recommendations - there
is no products key at all. -/
theorem generate_recommendation_empty_counterexample :
    (generate_recommendation (fun _ => .serviceError) {} [] 3).1
      = .ok no_results_recommendation ∧
    no_results_recommendation.analysis = some "" ∧
    no_results_recommendation.analysis ≠ some "No products found." ∧
    no_results_recommendation.products = none ∧
    no_results_recommendation.recommendations = some [] := by
  refine ⟨rfl, rfl, by decide, rfl, rfl⟩

/-- C2 (amended): for every completion oracle, request and top_n,
generate_recommendation on an empty offer sequence makes zero completion
calls and returns status no_results with message "No products found
matching your criteria.", an empty recommendations list, an empty
analysis string and no products key. -/
theorem generate_recommendation_empty (llm : String → CompletionOutcome Recommendation)
    (info : StructuredRequest) (top_n : Nat) :
    generate_recommendation llm info [] top_n = (.ok no_results_recommendation, 0) ∧
    no_results_recommendation.status = "no_results" ∧
    no_results_recommendation.message = some "No products found matching your criteria." ∧
    no_results_recommendation.recommendations = some [] ∧
    no_results_recommendation.analysis = some "" ∧
    no_results_recommendation.products = none :=
  ⟨rfl, rfl, rfl, rfl, rfl, rfl⟩

/-- C3, counterexample input: null price, rating 4. -/
def offer_c : Offer := { price := none, rating := some 4 }

/-- C3, counterexample input: price 10, rating 4 (tied with offer_c). -/
def offer_d : Offer := { price := some 10, rating := some 4 }

/-- C3, counterexample: with a failing completion service and two
candidates that tie on rating while exactly one has a null price, the
fallback sort compares None with a number and raises TypeError, so no
success recommendation is returned. -/
theorem generate_recommendation_fallback_counterexample :
    (generate_recommendation (fun _ => .serviceError) {} [offer_c, offer_d] 3).1
      = .error .typeError := rfl

theorem extract_user_intent_ok (info : StructuredRequest)
    (hb : info.budget ≠ some none) (hp : info.preferences ≠ some none) :
    ∃ s, extract_user_intent info = .ok s := by
  unfold extract_user_intent
  cases hbe : info.budget with
  | none =>
    cases hpe : info.preferences with
    | none => exact ⟨_, rfl⟩
    | some v =>
      cases v with
      | none => exact absurd hpe hp
      | some prefs => exact ⟨_, rfl⟩
  | some vb =>
    cases vb with
    | none => exact absurd hbe hb
    | some bd =>
      cases hpe : info.preferences with
      | none => exact ⟨_, rfl⟩
      | some v =>
        cases v with
        | none => exact absurd hpe hp
        | some prefs => exact ⟨_, rfl⟩

/-- C3 (amended): for every non-empty candidate list whose first top_n
entries have pairwise-comparable fallback sort keys (no rating tie with
exactly one null price), and a request whose budget and preferences
values are not null, a completion-service failure or unparsable reply
yields the deterministic fallback: status success, best_overall index 0
with the fixed template reason, the fixed template analysis, and products
equal to the top_n candidates sorted by rating descending then price
ascending. -/
theorem generate_recommendation_fallback_spec
    (llm : String → CompletionOutcome Recommendation) (info : StructuredRequest)
    (results : List Offer) (top_n : Nat)
    (hres : results ≠ [])
    (hfail : ∀ s r, llm s ≠ .parsed r)
    (hb : info.budget ≠ some none) (hp : info.preferences ≠ some none)
    (hcomp : fallback_comparable (results.take top_n) = true) :
    ∃ r out, (generate_recommendation llm info results top_n).1 = .ok r ∧
      r.status = "success" ∧
      r.best_overall = some { index := 0, reason := "Best combination of price and rating" } ∧
      r.analysis = some ("Found " ++ toString results.length
        ++ " options. Top recommendation based on price and ratings.") ∧
      r.products = some out ∧
      List.Perm out (results.take top_n) ∧
      out.Pairwise fb_rel ∧
      out.Pairwise (fun a b => fb_rating_key b ≤ fb_rating_key a) := by
  obtain ⟨s, hintent⟩ := extract_user_intent_ok info hb hp
  have hresne : results.isEmpty = false := by
    cases results with
    | nil => exact absurd rfl hres
    | cons a as => rfl
  have hfb : create_fallback_recommendation results top_n
      = .ok { status := "success"
              best_overall := some { index := 0, reason := "Best combination of price and rating" }
              analysis := some ("Found " ++ toString results.length
                ++ " options. Top recommendation based on price and ratings.")
              products := some ((results.take top_n).insertionSort fb_rel)
              considerations := some ["Price", "Seller rating", "Availability"] } := by
    unfold create_fallback_recommendation
    rw [hresne, if_neg (by simp), if_pos hcomp]
  have hgen : (generate_recommendation llm info results top_n).1
      = create_fallback_recommendation results top_n := by
    cases hcall : llm (recommendation_prompt s
        (prepare_products_summary (results.take top_n))) with
    | parsed r => exact absurd hcall (hfail _ r)
    | serviceError => simp only [generate_recommendation, hresne, Bool.false_eq_true,
        if_false, hintent, hcall]
    | unparsable => simp only [generate_recommendation, hresne, Bool.false_eq_true,
        if_false, hintent, hcall]
  refine ⟨_, (results.take top_n).insertionSort fb_rel, by rw [hgen, hfb], rfl, rfl, rfl, rfl,
    List.perm_insertionSort _ _, List.sorted_insertionSort _ _, ?_⟩
  refine (List.sorted_insertionSort fb_rel (results.take top_n)).imp (fun {a b} hab => ?_)
  rcases hab with h | ⟨h, -⟩
  · exact le_of_lt h
  · exact le_of_eq h.symm

theorem generate_recommendation_fallback_spec_witness :
    ∃ r out, (generate_recommendation (fun _ => .serviceError) {} [offer_a, offer_b] 3).1
        = .ok r ∧
      r.status = "success" ∧
      r.best_overall = some { index := 0, reason := "Best combination of price and rating" } ∧
      r.analysis = some ("Found " ++ toString ([offer_a, offer_b].length)
        ++ " options. Top recommendation based on price and ratings.") ∧
      r.products = some out ∧
      List.Perm out ([offer_a, offer_b].take 3) ∧
      out.Pairwise fb_rel ∧
      out.Pairwise (fun a b => fb_rating_key b ≤ fb_rating_key a) :=
  generate_recommendation_fallback_spec (fun _ => .serviceError) {} [offer_a, offer_b] 3
    (by decide) (fun s r h => by cases h) (by decide) (by decide) (by decide)

/-- Whether the recommender outcome is a returned dictionary whose status
key is "error" (a raised exception is not such a return). -/
def status_is_error : Except PyError Recommendation → Bool
  | .ok r => r.status == "error"
  | .error _ => false

/-- C10: generate_recommendation never returns a recommendation with
status "error": the empty input short-circuits to no_results before the
fallback is reached, and the fallback is only ever invoked with a
non-empty product list, so its error branch is unreachable. -/
theorem generate_recommendation_never_error_status
    (llm : String → CompletionOutcome Recommendation) (info : StructuredRequest)
    (results : List Offer) (top_n : Nat) :
    status_is_error (generate_recommendation llm info results top_n).1 = false := by
  cases results with
  | nil => rfl
  | cons a as =>
    have hres : (a :: as).isEmpty = false := rfl
    cases hintent : extract_user_intent info with
    | error e => simp only [generate_recommendation, hres, Bool.false_eq_true, if_false,
        hintent, status_is_error]
    | ok s =>
      cases hcall : llm (recommendation_prompt s
          (prepare_products_summary ((a :: as).take top_n))) with
      | parsed r =>
        simp only [generate_recommendation, hres, Bool.false_eq_true, if_false,
          hintent, hcall, status_is_error]
        rfl
      | serviceError =>
        simp only [generate_recommendation, hres, Bool.false_eq_true, if_false,
          hintent, hcall]
        unfold create_fallback_recommendation
        rw [hres]
        by_cases hcomp : fallback_comparable ((a :: as).take top_n) = true
        · rw [if_neg (by simp), if_pos hcomp]; rfl
        · rw [if_neg (by simp), if_neg hcomp]; rfl
      | unparsable =>
        simp only [generate_recommendation, hres, Bool.false_eq_true, if_false,
          hintent, hcall]
        unfold create_fallback_recommendation
        rw [hres]
        by_cases hcomp : fallback_comparable ((a :: as).take top_n) = true
        · rw [if_neg (by simp), if_pos hcomp]; rfl
        · rw [if_neg (by simp), if_neg hcomp]; rfl

/-! ## vector_db.py and app.py -/

/-- VectorDatabase.add_products: an empty batch returns before touching
the store; otherwise the outcome of the embedding call plus collection.add
is the store oracle.  (The document/metadata shaping cannot itself raise
and does not affect the returned value, which is None on success.)  There
is no try/except here or around the call site in app.py. -/
def add_products (store : Except PyError Unit) (products : List Offer) :
    Except PyError Unit :=
  if products.isEmpty then .ok () else store

/-- PriceComparisonApp.process_query.  The second component is the list of
(step, percent) arguments the progress callback receives, in call order;
agent initialization only stores context and is a data no-op.  The
returned value is the (product_info, recommendation, results) tuple, or
the exception that escaped. -/
def process_query (cfg : Config)
    (llmP : String → CompletionOutcome StructuredRequest)
    (serp : Except PyError (List RawListing))
    (store : Except PyError Unit)
    (llmR : String → CompletionOutcome Recommendation)
    (user_query : String) :
    Except PyError (StructuredRequest × Recommendation × List Offer) × List (String × Nat) :=
  let t1 : List (String × Nat) := [("Parsing your request...", 10)]
  let product_info := parse_query cfg llmP user_query
  let t2 := t1 ++ [("Searching for products...", 30)]
  let search_results := search_all_sources serp
  if search_results.isEmpty then
    (.ok (product_info, { status := "no_results" }, []), t2 ++ [("No results found", 100)])
  else
    let t3 := t2 ++ [("Ranking results...", 50)]
    match rank_results (product_info.preferences.getD (some {})) search_results with
    | .error e => (.error e, t3)
    | .ok ranked_results =>
      let t4 := t3 ++ [("Storing product data...", 60)]
      match add_products store ranked_results with
      | .error e => (.error e, t4)
      | .ok _ =>
        let t5 := t4 ++ [("Generating recommendations...", 80)]
        match (generate_recommendation llmR product_info ranked_results 5).1 with
        | .error e => (.error e, t5)
        | .ok recommendation =>
          let t6 := t5 ++ [("Preparing assistants...", 90)]
          (.ok (product_info, recommendation, ranked_results), t6 ++ [("Complete!", 100)])

theorem mapM_ok_length {α β : Type} (f : α → Except PyError β)
    (l : List α) (out : List β) (h : l.mapM f = .ok out) : out.length = l.length := by
  induction l generalizing out with
  | nil => cases h; rfl
  | cons a as ih =>
    rw [List.mapM_cons] at h
    cases hfa : f a with
    | error e => rw [hfa] at h; cases h
    | ok b =>
      rw [hfa] at h
      cases hrest : as.mapM f with
      | error e => rw [hrest] at h; cases h
      | ok bs =>
        rw [hrest] at h
        cases h
        simpa using ih bs hrest

theorem rank_results_ok_length (p : Option Preferences) (l : List Offer)
    (out : List Offer) (h : rank_results p l = .ok out) : out.length = l.length := by
  by_cases hl : l.isEmpty
  · rw [List.isEmpty_iff] at hl
    subst hl
    cases h
    rfl
  · rw [rank_results.eq_def, if_neg hl] at h
    cases p with
    | none => cases h
    | some prefs =>
      simp only at h
      cases hm : l.mapM (fun o =>
          (calculate_score (prefs.price_priority.getD (some "lowest"))
            (prefs.delivery_priority.getD false) o).map (fun s => (o, s))) with
      | error e => rw [hm] at h; cases h
      | ok keyed =>
        rw [hm] at h
        cases h
        rw [List.length_map, List.length_insertionSort]
        exact mapM_ok_length _ _ _ hm

/-- C6, counterexample input: a raw listing with a numeric price. -/
def raw_item_w : RawListing := { extracted_price := some (some 100) }

/-- C6, counterexample: when the vector-store write raises, process_query
propagates the exception instead of logging it: no tuple is returned. -/
theorem process_query_store_error_counterexample :
    (process_query config (fun _ => .serviceError) (.ok [raw_item_w])
      (.error .serviceError) (fun _ => .serviceError) "phone").1
      = .error .serviceError := rfl

/-- C6 (amended): upstream search-service failure is contained (an erroring
search yields the well-formed no-results tuple), but an indexing failure is
not caught anywhere: whenever the pipeline reaches the vector-store write
with a non-empty ranked list and the store raises, process_query propagates
that exception to its caller instead of returning a tuple. -/
theorem process_query_error_containment (cfg : Config)
    (llmP : String → CompletionOutcome StructuredRequest)
    (store : Except PyError Unit)
    (llmR : String → CompletionOutcome Recommendation) (raw : String) :
    (∀ e : PyError, (process_query cfg llmP (.error e) store llmR raw).1
      = .ok (parse_query cfg llmP raw, { status := "no_results" }, [])) ∧
    (∀ (e : PyError) (items : List RawListing) (ranked : List Offer), items ≠ [] →
      rank_results ((parse_query cfg llmP raw).preferences.getD (some {}))
        (search_all_sources (.ok items)) = .ok ranked →
      (process_query cfg llmP (.ok items) (.error e) llmR raw).1 = .error e) := by
  constructor
  · intro e
    rfl
  · intro e items ranked hitems hrank
    have hse : (search_all_sources (.ok items)).isEmpty = false := by
      cases items with
      | nil => exact absurd rfl hitems
      | cons a as => rfl
    have hrankne : ranked.isEmpty = false := by
      have hlen := rank_results_ok_length _ _ _ hrank
      cases ranked with
      | cons a as => rfl
      | nil =>
        rw [search_all_sources, search_google_shopping] at hlen
        cases items with
        | nil => exact absurd rfl hitems
        | cons a as => simp at hlen
    simp only [process_query, hse, Bool.false_eq_true, if_false, hrank, add_products,
      hrankne]

theorem process_query_error_containment_witness :
    (process_query config (fun _ => .serviceError) (.error .serviceError)
      (.error .serviceError) (fun _ => .serviceError) "phone").1
      = .ok (parse_query config (fun _ => .serviceError) "phone",
        { status := "no_results" }, []) ∧
    (process_query config (fun _ => .serviceError) (.ok [raw_item_w])
      (.error .serviceError) (fun _ => .serviceError) "phone").1
      = .error .serviceError :=
  ⟨(process_query_error_containment config (fun _ => .serviceError) (.error .serviceError)
      (fun _ => .serviceError) "phone").1 .serviceError,
   (process_query_error_containment config (fun _ => .serviceError) (.error .serviceError)
      (fun _ => .serviceError) "phone").2 .serviceError [raw_item_w]
      [normalize_google_shopping_result raw_item_w] (by simp) rfl⟩

/-- C9: the percentages handed to the progress callback are monotonically
non-decreasing on every path, and on every path on which process_query
returns its tuple (the normal path and the empty-results short-circuit)
the final invocation carries 100. -/
theorem process_query_progress (cfg : Config)
    (llmP : String → CompletionOutcome StructuredRequest)
    (serp : Except PyError (List RawListing))
    (store : Except PyError Unit)
    (llmR : String → CompletionOutcome Recommendation) (raw : String) :
    List.Chain' (· ≤ ·) ((process_query cfg llmP serp store llmR raw).2.map Prod.snd) ∧
    ∀ t, (process_query cfg llmP serp store llmR raw).1 = .ok t →
      ((process_query cfg llmP serp store llmR raw).2.map Prod.snd).getLast? = some 100 := by
  by_cases h1 : (search_all_sources serp).isEmpty
  · refine ⟨?_, fun t ht => ?_⟩
    · simp [process_query, h1, List.chain'_cons]
    · simp [process_query, h1]
  · cases h2 : rank_results ((parse_query cfg llmP raw).preferences.getD (some {}))
        (search_all_sources serp) with
    | error e =>
      refine ⟨?_, fun t ht => ?_⟩
      · simp [process_query, h1, h2, List.chain'_cons]
      · simp [process_query, h1, h2] at ht
    | ok ranked =>
      cases h3 : add_products store ranked with
      | error e =>
        refine ⟨?_, fun t ht => ?_⟩
        · simp [process_query, h1, h2, h3, List.chain'_cons]
        · simp [process_query, h1, h2, h3] at ht
      | ok u =>
        cases h4 : (generate_recommendation llmR (parse_query cfg llmP raw) ranked 5).1 with
        | error e =>
          refine ⟨?_, fun t ht => ?_⟩
          · simp [process_query, h1, h2, h3, h4, List.chain'_cons]
          · simp [process_query, h1, h2, h3, h4] at ht
        | ok recommendation =>
          refine ⟨?_, fun t ht => ?_⟩
          · simp [process_query, h1, h2, h3, h4, List.chain'_cons]
          · simp [process_query, h1, h2, h3, h4]

theorem process_query_progress_witness :
    List.Chain' (· ≤ ·) ((process_query config (fun _ => .serviceError) (.error .serviceError)
      (.error .serviceError) (fun _ => .serviceError) "q").2.map Prod.snd) ∧
    ((process_query config (fun _ => .serviceError) (.error .serviceError)
      (.error .serviceError) (fun _ => .serviceError) "q").2.map Prod.snd).getLast?
      = some 100 :=
  ⟨(process_query_progress config (fun _ => .serviceError) (.error .serviceError)
      (.error .serviceError) (fun _ => .serviceError) "q").1,
   (process_query_progress config (fun _ => .serviceError) (.error .serviceError)
      (.error .serviceError) (fun _ => .serviceError) "q").2 _ rfl⟩

end ShoppingAgent
